import Mathlib

/-!
Shallow embedding of the ECDHE/TLS proxy application
(src/sgx/demo/server/tls_proxy.c) together with theorems settling the
frozen claims about its specification.

Conventions of the embedding:
* C structs become Lean structures; pointer-valued handles become
  Option Nat (none models a NULL pointer, some h models a live handle).
* Byte buffers become List Nat.
* Calls into OpenSSL and the operating system are modelled by oracles:
  records of booleans or small inductives that fix the result of each
  external call, so that every control-flow path of the C code is a
  value of the oracle type.
* exit(code) is modelled by an Except error value or an explicit
  outcome constructor carrying the exit status.
-/

namespace TlsProxy

/-- Byte strings, one Nat per byte. -/
abbrev Bytes := List Nat

/-- Modelled from the spec: ECDH_MAX_MSG_SIZE is the compile-time maximum
plaintext size per frame (declared in a header that is not under src/;
the spec calls it implementation-defined).  The concrete value is
irrelevant to every theorem below, which only use that it is the size of
the relay read buffer. -/
def ECDH_MAX_MSG_SIZE : Nat := 16384

/-- TLS1_2_VERSION, the OpenSSL constant 0x0303. -/
def TLS1_2_VERSION : Nat := 771

/-- SSL_VERIFY_PEER, the OpenSSL constant 0x01. -/
def SSL_VERIFY_PEER : Nat := 1

/-- EXIT_FAILURE as used by proxy_error. -/
def EXIT_FAILURE : Nat := 1

/-- EXIT_SUCCESS as returned by main and by the usage paths. -/
def EXIT_SUCCESS : Nat := 0

/-- The fields of the ECDHServer struct that tls_proxy.c reads or
writes, plus the session key region.  The struct itself is declared in a
header that is not under src/; the fields below are exactly those the
proxy code touches (private_key_path, public_cert_path, port, maxconn,
socket_fd) plus session_key, modelled from the spec (the SessionKey
region owned by the session, §3 of the spec). -/
structure ECDHServer where
  private_key_path : Option String
  public_cert_path : Option String
  port : Option String
  maxconn : Int
  socket_fd : Int
  session_key : Bytes
deriving DecidableEq, Repr

/-- The TLSConnection struct: two OpenSSL handles (conn is the BIO
chain, ctx the SSL_CTX) and the configuration strings set from the
command line. -/
structure TLSConnection where
  conn : Option Nat
  ctx : Option Nat
  host : Option String
  port : Option String
  ca_path : Option String
  client_key_path : Option String
  client_cert_path : Option String
deriving DecidableEq, Repr

/-- The TLSProxy struct: one ECDH server side and one TLS client side. -/
structure TLSProxy where
  ecdhconn : ECDHServer
  tlsconn : TLSConnection
deriving DecidableEq, Repr

/-- The all-zero ECDHServer produced by zeroing the struct: NULL paths,
zero counters, zero fd, empty key region. -/
def zeroECDHServer : ECDHServer :=
  { private_key_path := none
    public_cert_path := none
    port := none
    maxconn := 0
    socket_fd := 0
    session_key := [] }

/-- The all-zero TLSConnection: NULL handles and NULL strings. -/
def zeroTLSConnection : TLSConnection :=
  { conn := none
    ctx := none
    host := none
    port := none
    ca_path := none
    client_key_path := none
    client_cert_path := none }

/-- The all-zero TLSProxy struct. -/
def zeroTLSProxy : TLSProxy :=
  { ecdhconn := zeroECDHServer, tlsconn := zeroTLSConnection }

/-- proxy_init: secure_memset of the whole struct to zero, then init of
the ecdhconn substruct.  init lives in ecdh_demo.c, which is not under
src/; modelled from the spec as (re)establishing the initial empty ECDH
connection state, which on the all-zero struct is the identity.  The
result does not depend on the previous contents. -/
def proxy_init (_p : TLSProxy) : TLSProxy := zeroTLSProxy

/-- A free performed by tls_cleanup, recording which handle was
released. -/
inductive TlsFree where
  | freeConn (h : Nat)
  | freeCtx (h : Nat)
deriving DecidableEq, Repr

/-- tls_cleanup: BIO_free_all on conn when it is non-NULL and
SSL_CTX_free on ctx when it is non-NULL.  The C code does not null the
pointers, so the struct value is unchanged; the returned list records
the frees that were performed. -/
def tls_cleanup (t : TLSConnection) : List TlsFree :=
  (match t.conn with
   | some h => [TlsFree.freeConn h]
   | none => []) ++
  (match t.ctx with
   | some h => [TlsFree.freeCtx h]
   | none => [])

/-- Modelled from the spec: cleanup (ecdh_demo.c, not under src/) is the
session teardown of the ECDH side; per §4.8 it closes the socket and
frees/zeroizes the SessionKey, overwriting the key region with zeros. -/
def cleanup (e : ECDHServer) : ECDHServer :=
  { e with
    session_key := e.session_key.map (fun _ => 0)
    socket_fd := 0 }

/-- proxy_cleanup: cleanup of the ECDH side, tls_cleanup of the TLS
side, then proxy_init, which re-zeroes the whole struct.  Returns the
frees performed by tls_cleanup together with the final struct value. -/
def proxy_cleanup (p : TLSProxy) : List TlsFree × TLSProxy :=
  (tls_cleanup p.tlsconn,
   proxy_init { ecdhconn := cleanup p.ecdhconn, tlsconn := p.tlsconn })

/-- proxy_error: proxy_cleanup followed by exit(EXIT_FAILURE).  Returns
the frees, the torn-down state and the process exit status. -/
def proxy_error (p : TLSProxy) : List TlsFree × TLSProxy × Nat :=
  ((proxy_cleanup p).1, (proxy_cleanup p).2, EXIT_FAILURE)

/-! ## Command-line option handling

getopt_long is modelled by a list of already-recognised options: each
element is one option with its argument, in command-line order; the
unknown constructor stands for any string getopt_long does not
recognise (getopt_long then returns a char that falls into the default
arm of the switch).  The m option carries the Int that atoi produced
from its argument. -/

inductive CmdOpt where
  | r (v : String)
  | u (v : String)
  | p (v : String)
  | I (v : String)
  | P (v : String)
  | C (v : String)
  | R (v : String)
  | U (v : String)
  | m (v : Int)
  | h
  | unknown
deriving DecidableEq, Repr

/-- The getopt_long loop of proxy_get_options: each recognised option
stores its argument into the struct; -h prints usage and exits 0; an
unrecognised option falls to the default arm, which calls proxy_error
(exit 1).  Except.error carries the exit status. -/
def getopt_loop (p : TLSProxy) : List CmdOpt → Except Nat TLSProxy
  | [] => Except.ok p
  | CmdOpt.r v :: rest =>
      getopt_loop { p with ecdhconn := { p.ecdhconn with private_key_path := some v } } rest
  | CmdOpt.u v :: rest =>
      getopt_loop { p with ecdhconn := { p.ecdhconn with public_cert_path := some v } } rest
  | CmdOpt.p v :: rest =>
      getopt_loop { p with ecdhconn := { p.ecdhconn with port := some v } } rest
  | CmdOpt.I v :: rest =>
      getopt_loop { p with tlsconn := { p.tlsconn with host := some v } } rest
  | CmdOpt.P v :: rest =>
      getopt_loop { p with tlsconn := { p.tlsconn with port := some v } } rest
  | CmdOpt.C v :: rest =>
      getopt_loop { p with tlsconn := { p.tlsconn with ca_path := some v } } rest
  | CmdOpt.R v :: rest =>
      getopt_loop { p with tlsconn := { p.tlsconn with client_key_path := some v } } rest
  | CmdOpt.U v :: rest =>
      getopt_loop { p with tlsconn := { p.tlsconn with client_cert_path := some v } } rest
  | CmdOpt.m v :: rest =>
      getopt_loop { p with ecdhconn := { p.ecdhconn with maxconn := v } } rest
  | CmdOpt.h :: _ => Except.error EXIT_SUCCESS
  | CmdOpt.unknown :: _ => Except.error EXIT_FAILURE

/-- proxy_get_options: with no arguments at all (argc == 1) it prints
usage and exits EXIT_SUCCESS; otherwise it runs the getopt loop. -/
def proxy_get_options (p : TLSProxy) (args : List CmdOpt) : Except Nat TLSProxy :=
  if args = [] then Except.error EXIT_SUCCESS else getopt_loop p args

/-- Modelled from the spec: check_options (ecdh_demo.c, not under src/)
validates the ECDH side of the configuration.  The CLI table of the
spec lists local-port, private and public without the Optional marker
that ca-path, client-key, client-cert and maxconn carry, so those three
are required; on a missing one the ecdh error path exits non-zero. -/
def check_options (e : ECDHServer) : Except Nat Unit :=
  if e.port.isNone || e.private_key_path.isNone || e.public_cert_path.isNone
  then Except.error EXIT_FAILURE
  else Except.ok ()

/-- proxy_check_options: check_options on the ECDH side, then the -I
and -P presence checks; on any failure proxy_error exits
EXIT_FAILURE. -/
def proxy_check_options (p : TLSProxy) : Except Nat TLSProxy :=
  match check_options p.ecdhconn with
  | Except.error c => Except.error c
  | Except.ok _ =>
      if p.tlsconn.host.isNone || p.tlsconn.port.isNone
      then Except.error EXIT_FAILURE
      else Except.ok p

/-- The startup prefix of main: proxy_init, proxy_get_options,
proxy_check_options.  Except.error c models the process exiting with
status c before reaching proxy_main. -/
def main_startup (args : List CmdOpt) : Except Nat TLSProxy :=
  match proxy_get_options (proxy_init zeroTLSProxy) args with
  | Except.error c => Except.error c
  | Except.ok p => proxy_check_options p

/-- Outcome of proxy_main for the exit-code model of main: either the
relay loop ended with a clean TLS close (proxy_start returns, main
cleans up and returns EXIT_SUCCESS) or some fatal error called
proxy_error (exit EXIT_FAILURE). -/
inductive SessionOutcome where
  | cleanShutdown
  | fatalError
deriving DecidableEq, Repr

/-- The exit status of the whole process: the startup status if startup
exits, otherwise 0 on a clean shutdown and 1 when a fatal error reached
proxy_error. -/
def main_exit (args : List CmdOpt) (s : SessionOutcome) : Nat :=
  match main_startup args with
  | Except.error c => c
  | Except.ok _ =>
      match s with
      | SessionOutcome.cleanShutdown => EXIT_SUCCESS
      | SessionOutcome.fatalError => EXIT_FAILURE

/-! ## TLS client construction (tls_config_ctx, tls_config_conn,
tls_connect, setup_tlsconn) -/

/-- Where the verified trust anchors of the SSL_CTX come from: the
ca_path file when one was supplied, the platform default store
otherwise. -/
inductive TrustSource where
  | custom (path : String)
  | systemDefault
deriving DecidableEq, Repr

/-- The configuration that tls_config_ctx records in the SSL_CTX on
success: minimum protocol version, verification mode and depth, trust
anchors, and the client key and certificate files loaded into the
context (none when the corresponding path was not supplied). -/
structure SSLCtxState where
  minProtoVersion : Nat
  verifyMode : Nat
  verifyDepth : Nat
  trust : TrustSource
  clientKey : Option String
  clientCert : Option String
deriving DecidableEq, Repr

/-- Results of the fallible OpenSSL calls made by tls_config_ctx, one
flag per call site, true meaning the call succeeded. -/
structure CtxOracle where
  methodOk : Bool
  ctxNewOk : Bool
  minProtoOk : Bool
  verifyLocOk : Bool
  defaultPathsOk : Bool
  privKeyOk : Bool
  certOk : Bool
deriving DecidableEq, Repr

/-- The trust-anchor step of tls_config_ctx: with a ca_path,
SSL_CTX_load_verify_locations on that file; without one,
SSL_CTX_set_default_verify_paths.  none models the -1 return. -/
def trustStep (caPath : Option String) (o : CtxOracle) : Option TrustSource :=
  match caPath with
  | some path => if o.verifyLocOk then some (TrustSource.custom path) else none
  | none => if o.defaultPathsOk then some TrustSource.systemDefault else none

/-- tls_config_ctx: TLS_client_method, SSL_CTX_new, set the minimum
protocol version to TLS1_2_VERSION, SSL_CTX_set_verify with
SSL_VERIFY_PEER, verification depth 5, load trust anchors, then load
the client private key file when client_key_path is set and the client
certificate file when client_cert_path is set, each step aborting with
none (the C code returns -1) on failure.  SSL_CTX_set_verify and
SSL_CTX_set_verify_depth return void and cannot fail. -/
def tls_config_ctx (c : TLSConnection) (o : CtxOracle) : Option SSLCtxState :=
  if !o.methodOk then none
  else if !o.ctxNewOk then none
  else if !o.minProtoOk then none
  else
    match trustStep c.ca_path o with
    | none => none
    | some tr =>
        if c.client_key_path.isSome && !o.privKeyOk then none
        else if c.client_cert_path.isSome && !o.certOk then none
        else some
          { minProtoVersion := TLS1_2_VERSION
            verifyMode := SSL_VERIFY_PEER
            verifyDepth := 5
            trust := tr
            clientKey := c.client_key_path
            clientCert := c.client_cert_path }

/-- Results of the fallible OpenSSL calls made by tls_config_conn. -/
structure ConnOracle where
  bioNewOk : Bool
  setHostnameOk : Bool
  setPortOk : Bool
  getSslOk : Bool
  sniOk : Bool
  set1HostOk : Bool
deriving DecidableEq, Repr

/-- What tls_config_conn records in the BIO/SSL objects on success: the
connect hostname and port of the BIO, the SNI hostname set by
SSL_set_tlsext_host_name and the verification hostname set by
SSL_set1_host. -/
structure SSLConnState where
  connHostname : String
  connPort : String
  sniHost : String
  verifyHost : String
deriving DecidableEq, Repr

/-- tls_config_conn: BIO_new_ssl_connect, BIO_set_conn_hostname and
BIO_set_conn_port with the configured host and port strings,
BIO_get_ssl, then SSL_set_tlsext_host_name and SSL_set1_host, both with
the same tlsconn->host string; each failing step returns -1 (none
here).  At its only call site proxy_check_options has already ensured
host and port are non-NULL; a NULL host or port is modelled as a failed
call. -/
def tls_config_conn (c : TLSConnection) (o : ConnOracle) : Option SSLConnState :=
  if !o.bioNewOk then none
  else
    match c.host, c.port with
    | some h, some p =>
        if !o.setHostnameOk then none
        else if !o.setPortOk then none
        else if !o.getSslOk then none
        else if !o.sniOk then none
        else if !o.set1HostOk then none
        else some { connHostname := h, connPort := p, sniHost := h, verifyHost := h }
    | _, _ => none

/-- Oracle for the whole setup_tlsconn sequence: the context and
connection configuration calls plus the BIO_do_connect result
(tls_connect returns 0 exactly when BIO_do_connect returned 1). -/
structure TlsOracle where
  ctx : CtxOracle
  conn : ConnOracle
  connectOk : Bool
deriving DecidableEq, Repr

/-- Result of setup_tlsconn: the configured context and connection on
success, or the process exiting with the given status (proxy_error) on
any failure. -/
inductive SetupResult where
  | ok (ctxState : SSLCtxState) (connState : SSLConnState)
  | exited (code : Nat)
deriving DecidableEq, Repr

/-- setup_tlsconn: tls_config_ctx, then tls_config_conn, then
tls_connect, calling proxy_error (which exits EXIT_FAILURE) on the
first failure.  The Bool records whether BIO_do_connect was attempted:
it is reached only after both configuration calls succeed. -/
def setup_tlsconn (c : TLSConnection) (o : TlsOracle) : Bool × SetupResult :=
  match tls_config_ctx c o.ctx with
  | none => (false, SetupResult.exited EXIT_FAILURE)
  | some ctxState =>
      match tls_config_conn c o.conn with
      | none => (false, SetupResult.exited EXIT_FAILURE)
      | some connState =>
          if o.connectOk
          then (true, SetupResult.ok ctxState connState)
          else (true, SetupResult.exited EXIT_FAILURE)

/-! ## ECDHE handshake setup (setup_ecdhconn) -/

/-- The calls setup_ecdhconn makes, in the order the C source lists
them.  The callees live in ecdh_demo.c (not under src/); only their
order is at issue here. -/
inductive HandshakeStep where
  | createServerSocket
  | loadPrivateKey
  | loadPublicKey
  | makeEphemeralKeypair
  | recvEphemeralPublic
  | sendEphemeralPublic
  | getSessionKey
deriving DecidableEq, Repr

/-- The call sequence of setup_ecdhconn, read off the body of the
function: create_server_socket, load_private_key, load_public_key,
make_ephemeral_keypair, recv_ephemeral_public, send_ephemeral_public,
get_session_key. -/
def setup_ecdhconn_calls : List HandshakeStep :=
  [HandshakeStep.createServerSocket,
   HandshakeStep.loadPrivateKey,
   HandshakeStep.loadPublicKey,
   HandshakeStep.makeEphemeralKeypair,
   HandshakeStep.recvEphemeralPublic,
   HandshakeStep.sendEphemeralPublic,
   HandshakeStep.getSessionKey]

/-! ## The relay loop (proxy_start) -/

/-- Observable actions of one iteration of the relay loop. -/
inductive Event where
  | recvDecrypt (msg : Bytes)
  | tlsWrite (msg : Bytes) (ret : Int)
  | clearBuf (msg : Bytes)
  | freeBuf (msg : Bytes)
  | encryptSend (msg : Bytes)
  | logPeerClosed
  | cleanupCall
  | exitProc (code : Nat)
deriving DecidableEq, Repr

/-- What BIO_read finds on the TLS side: the connection already closed
(BIO_read returns 0), a read error (negative return), or a stream
holding the given bytes, of which BIO_read returns at most the buffer
size. -/
inductive TlsReadSource where
  | closed
  | readError
  | data (avail : Bytes)
deriving DecidableEq, Repr

/-- One wakeup of the poll loop: which descriptors are readable, what
ecdh_recv_decrypt would deliver, what BIO_write would return, and what
BIO_read would find. -/
structure RelayOracle where
  ecdhReadable : Bool
  tlsReadable : Bool
  ecdhMsg : Bytes
  tlsWriteRet : Int
  tlsRead : TlsReadSource
deriving DecidableEq, Repr

/-- How the iteration left the loop. -/
inductive StepOutcome where
  | continueLoop
  | breakLoop
  | exitProcess (code : Nat)
deriving DecidableEq, Repr

/-- The TLS-readable branch of the loop body (the pfds[1] block):
BIO_read into the ECDH_MAX_MSG_SIZE buffer; a zero return logs that
the connection closed and breaks out of the loop; a negative return is
a TLS read error and calls proxy_error; a positive return hands the
bytes read to ecdh_encrypt_send. -/
def tls_branch (o : RelayOracle) : List Event × StepOutcome :=
  if o.tlsReadable then
    match o.tlsRead with
    | TlsReadSource.closed => ([Event.logPeerClosed], StepOutcome.breakLoop)
    | TlsReadSource.readError =>
        ([Event.cleanupCall, Event.exitProc EXIT_FAILURE],
         StepOutcome.exitProcess EXIT_FAILURE)
    | TlsReadSource.data avail =>
        if (avail.take ECDH_MAX_MSG_SIZE).length = 0
        then ([Event.logPeerClosed], StepOutcome.breakLoop)
        else ([Event.encryptSend (avail.take ECDH_MAX_MSG_SIZE)], StepOutcome.continueLoop)
  else ([], StepOutcome.continueLoop)

/-- One full iteration of the relay loop body after poll returns.  The
ECDH-readable branch (the pfds[0] block) runs first: ecdh_recv_decrypt
yields the plaintext, BIO_write writes it to the TLS stream, and a
return different from the payload length calls proxy_error (cleanup
then exit EXIT_FAILURE); otherwise kmyth_clear_and_free zeroizes and
frees the buffer (modelled from the spec: kmyth_clear_and_free is a
utility outside src/ that clears a buffer before freeing it) and the
TLS-readable branch follows. -/
def proxy_step (o : RelayOracle) : List Event × StepOutcome :=
  if o.ecdhReadable then
    if o.tlsWriteRet ≠ (o.ecdhMsg.length : Int) then
      ([Event.recvDecrypt o.ecdhMsg,
        Event.tlsWrite o.ecdhMsg o.tlsWriteRet,
        Event.cleanupCall, Event.exitProc EXIT_FAILURE],
       StepOutcome.exitProcess EXIT_FAILURE)
    else
      ([Event.recvDecrypt o.ecdhMsg,
        Event.tlsWrite o.ecdhMsg o.tlsWriteRet,
        Event.clearBuf o.ecdhMsg,
        Event.freeBuf o.ecdhMsg] ++ (tls_branch o).1,
       (tls_branch o).2)
  else tls_branch o

/-- Checks that in an event list every freeBuf is immediately preceded
by a clearBuf of the same buffer: the buffer is zeroized before it is
freed, and never freed otherwise. -/
def clearBeforeFree : List Event → Bool
  | [] => true
  | Event.clearBuf m :: Event.freeBuf m2 :: rest =>
      decide (m = m2) && clearBeforeFree rest
  | Event.freeBuf _ :: _ => false
  | _ :: rest => clearBeforeFree rest

/-! ## Example configurations used by witnesses and counterexamples -/

/-- A well-formed TLS connection configuration: remote host and port
set, no CA override, no client credentials. -/
def exampleConn : TLSConnection :=
  { conn := none
    ctx := none
    host := some "kms.example"
    port := some "9143"
    ca_path := none
    client_key_path := none
    client_cert_path := none }

/-- Oracle in which every OpenSSL context call succeeds. -/
def allOkCtxOracle : CtxOracle :=
  { methodOk := true
    ctxNewOk := true
    minProtoOk := true
    verifyLocOk := true
    defaultPathsOk := true
    privKeyOk := true
    certOk := true }

/-- Oracle in which every OpenSSL connection call succeeds. -/
def allOkConnOracle : ConnOracle :=
  { bioNewOk := true
    setHostnameOk := true
    setPortOk := true
    getSslOk := true
    sniOk := true
    set1HostOk := true }

/-- exampleConn with a client key file configured but no client
certificate. -/
def keyOnlyConn : TLSConnection :=
  { exampleConn with client_key_path := some "proxy_client_key.pem" }

/-! ## Helper lemmas -/

/-- The getopt loop exits with status 0 only on a -h option. -/
lemma getopt_loop_error_zero {p : TLSProxy} {args : List CmdOpt}
    (h : getopt_loop p args = Except.error EXIT_SUCCESS) : CmdOpt.h ∈ args := by
  induction args generalizing p with
  | nil => simp [getopt_loop] at h
  | cons a rest ih =>
      cases a <;> simp only [getopt_loop] at h <;>
        first
          | exact List.mem_cons_of_mem _ (ih h)
          | exact List.mem_cons_self _ _
          | simp [EXIT_FAILURE, EXIT_SUCCESS] at h

/-- An unrecognised option makes the getopt loop exit with status 1,
provided no -h option precedes it. -/
lemma getopt_loop_unknown {p : TLSProxy} {args : List CmdOpt}
    (hh : CmdOpt.h ∉ args) (hu : CmdOpt.unknown ∈ args) :
    getopt_loop p args = Except.error EXIT_FAILURE := by
  induction args generalizing p with
  | nil => simp at hu
  | cons a rest ih =>
      have hh2 : CmdOpt.h ∉ rest := fun hr => hh (List.mem_cons_of_mem _ hr)
      cases a <;> simp only [getopt_loop]
      case h => exact absurd (List.mem_cons_self _ _) hh
      all_goals
        exact ih hh2 (by
          rcases List.mem_cons.mp hu with heq | hr
          · exact absurd heq.symm (by simp)
          · exact hr)

/-- proxy_check_options never exits with status 0. -/
lemma proxy_check_options_ne_error_zero (p : TLSProxy) :
    proxy_check_options p ≠ Except.error EXIT_SUCCESS := by
  unfold proxy_check_options check_options
  split
  · next heq =>
      split at heq
      · simp only [Except.error.injEq] at heq
        simp [← heq, EXIT_FAILURE, EXIT_SUCCESS]
      · simp at heq
  · next heq =>
      split
      · simp [EXIT_FAILURE, EXIT_SUCCESS]
      · simp

/-- If proxy_check_options succeeds, all five required options are
present and the state is returned unchanged. -/
lemma proxy_check_options_ok {p q : TLSProxy}
    (h : proxy_check_options p = Except.ok q) :
    q = p ∧ p.tlsconn.host.isSome = true ∧ p.tlsconn.port.isSome = true ∧
      p.ecdhconn.port.isSome = true ∧ p.ecdhconn.private_key_path.isSome = true ∧
      p.ecdhconn.public_cert_path.isSome = true := by
  unfold proxy_check_options check_options at h
  split at h
  · next heq =>
      split at heq <;> simp_all
  · next heq =>
      split at heq
      · simp_all
      · next hopt =>
          split at h
          · simp at h
          · next htls =>
              simp only [Except.ok.injEq] at h
              push_neg at hopt htls
              simp only [Bool.or_eq_true, Bool.not_eq_true] at *
              constructor
              · exact h.symm
              · constructor
                · cases hval : p.tlsconn.host with
                  | none => simp [hval] at htls
                  | some _ => simp
                · constructor
                  · cases hval : p.tlsconn.port with
                    | none => simp [hval] at htls
                    | some _ => simp
                  · constructor
                    · cases hval : p.ecdhconn.port with
                      | none => simp [hval] at hopt
                      | some _ => simp
                    · constructor
                      · cases hval : p.ecdhconn.private_key_path with
                        | none => simp [hval] at hopt
                        | some _ => simp
                      · cases hval : p.ecdhconn.public_cert_path with
                        | none => simp [hval] at hopt
                        | some _ => simp

/-! ## Claim theorems -/

/-- C1 counterexample: session-fatal errors terminate the process with
a non-zero status.  A TLS connect failure during setup_tlsconn (with
every configuration call succeeding) makes the process exit
EXIT_FAILURE, and a relay read error likewise ends the iteration in a
process exit with status 1; both statuses differ from EXIT_SUCCESS, so
non-zero exits are not confined to startup/config failures and control
never returns to a supervisor. -/
theorem session_fatal_error_exits_process_nonzero :
    (setup_tlsconn exampleConn
        { ctx := allOkCtxOracle, conn := allOkConnOracle, connectOk := false }).2
      = SetupResult.exited EXIT_FAILURE ∧
    (tls_branch
        { ecdhReadable := false, tlsReadable := true, ecdhMsg := [],
          tlsWriteRet := 0, tlsRead := TlsReadSource.readError }).2
      = StepOutcome.exitProcess EXIT_FAILURE ∧
    EXIT_FAILURE ≠ EXIT_SUCCESS := by
  refine ⟨rfl, rfl, ?_⟩
  simp [EXIT_FAILURE, EXIT_SUCCESS]

/-- C1 amended: every fatal error, session-fatal ones included, goes
through proxy_error, which tears the session down (the state after it
is exactly the re-initialised zero state, with TLS handles freed by
proxy_cleanup) and then exits the whole process with status
EXIT_FAILURE; the process terminates rather than returning control to
a supervisor. -/
theorem proxy_error_teardown_then_exit (p : TLSProxy) :
    (proxy_error p).1 = tls_cleanup p.tlsconn ∧
    (proxy_error p).2.1 = proxy_init p ∧
    (proxy_error p).2.2 = EXIT_FAILURE := ⟨rfl, rfl, rfl⟩

/-- C2 counterexample: an invocation with no command-line options at
all, where every required option is missing, prints usage and makes
the process exit with status 0 (EXIT_SUCCESS), so missing options do
not always produce a non-zero exit. -/
theorem no_argument_invocation_exits_zero :
    main_startup [] = Except.error EXIT_SUCCESS ∧ EXIT_SUCCESS = 0 ∧
    zeroTLSProxy.tlsconn.host = none := ⟨rfl, rfl, rfl⟩

/-- C2 amended: the startup phase exits with status 0 only for the
usage paths (no arguments at all, or a -h option); an unrecognised
option exits with status 1; and whenever startup succeeds all five
required options (remote host, remote port, local port, private key,
public cert) are present, so every other misconfiguration exits
non-zero; after a successful startup the process exit status is 0
exactly on a clean shutdown. -/
theorem startup_exit_code_characterization (args : List CmdOpt) :
    (main_startup args = Except.error EXIT_SUCCESS → args = [] ∨ CmdOpt.h ∈ args) ∧
    (args ≠ [] → CmdOpt.h ∉ args → CmdOpt.unknown ∈ args →
       main_startup args = Except.error EXIT_FAILURE) ∧
    (∀ q, main_startup args = Except.ok q →
       q.tlsconn.host.isSome = true ∧ q.tlsconn.port.isSome = true ∧
       q.ecdhconn.port.isSome = true ∧ q.ecdhconn.private_key_path.isSome = true ∧
       q.ecdhconn.public_cert_path.isSome = true) ∧
    (∀ s q, main_startup args = Except.ok q →
       (main_exit args s = EXIT_SUCCESS ↔ s = SessionOutcome.cleanShutdown)) := by
  refine ⟨?_, ?_, ?_, ?_⟩
  · intro h
    by_cases hargs : args = []
    · exact Or.inl hargs
    · refine Or.inr ?_
      unfold main_startup proxy_get_options at h
      rw [if_neg hargs] at h
      cases hloop : getopt_loop (proxy_init zeroTLSProxy) args with
      | error c =>
          rw [hloop] at h
          cases h
          exact getopt_loop_error_zero hloop
      | ok q =>
          rw [hloop] at h
          exact absurd h (proxy_check_options_ne_error_zero q)
  · intro hne hh hu
    unfold main_startup proxy_get_options
    rw [if_neg hne, getopt_loop_unknown hh hu]
  · intro q h
    unfold main_startup at h
    cases hget : proxy_get_options (proxy_init zeroTLSProxy) args with
    | error c => rw [hget] at h; cases h
    | ok p2 =>
        rw [hget] at h
        have hc := proxy_check_options_ok h
        rcases hc with ⟨hq, hrest⟩
        subst hq
        exact hrest
  · intro s q h
    unfold main_exit
    rw [h]
    cases s <;> simp [EXIT_SUCCESS, EXIT_FAILURE]

/-- C2 witness: the amended characterization applied at the concrete
invocation consisting of a single unrecognised option: it is nonempty,
contains no -h and contains an unknown option, and startup exits with
status 1. -/
theorem startup_exit_code_characterization_witness :
    main_startup [CmdOpt.unknown] = Except.error EXIT_FAILURE :=
  (startup_exit_code_characterization [CmdOpt.unknown]).2.1
    (by simp) (by simp) (by simp)

/-- C5: in setup_ecdhconn the proxy receives the peer ephemeral public
contribution strictly before sending its own, exactly once each; key
loading and ephemeral keypair generation all precede the receive, and
session-key derivation follows the send. -/
theorem handshake_message_order :
    setup_ecdhconn_calls.indexOf HandshakeStep.loadPrivateKey <
      setup_ecdhconn_calls.indexOf HandshakeStep.recvEphemeralPublic ∧
    setup_ecdhconn_calls.indexOf HandshakeStep.loadPublicKey <
      setup_ecdhconn_calls.indexOf HandshakeStep.recvEphemeralPublic ∧
    setup_ecdhconn_calls.indexOf HandshakeStep.makeEphemeralKeypair <
      setup_ecdhconn_calls.indexOf HandshakeStep.recvEphemeralPublic ∧
    setup_ecdhconn_calls.indexOf HandshakeStep.recvEphemeralPublic <
      setup_ecdhconn_calls.indexOf HandshakeStep.sendEphemeralPublic ∧
    setup_ecdhconn_calls.indexOf HandshakeStep.sendEphemeralPublic <
      setup_ecdhconn_calls.indexOf HandshakeStep.getSessionKey ∧
    setup_ecdhconn_calls.count HandshakeStep.recvEphemeralPublic = 1 ∧
    setup_ecdhconn_calls.count HandshakeStep.sendEphemeralPublic = 1 := by
  decide

/-- C10: proxy_cleanup leaves the proxy in exactly the zero state that
proxy_init produces, and running it again is safe and a no-op: the
second run performs no TLS frees (both handles are already NULL) and
returns the same zero state, so proxy_cleanup is idempotent. -/
theorem proxy_cleanup_idempotent_zero_state (p : TLSProxy) :
    (proxy_cleanup p).2 = proxy_init p ∧
    proxy_cleanup ((proxy_cleanup p).2) = ([], (proxy_cleanup p).2) :=
  ⟨rfl, rfl⟩

/-- C3: in any loop iteration where the TLS side is readable, the read
is bounded by ECDH_MAX_MSG_SIZE; a zero-byte read (closed connection,
or no bytes delivered) logs the close and breaks out of the loop
cleanly; a read error ends in a process exit with status 1 (the fatal
TLS read error path through proxy_error); and a positive read of n
bytes hands exactly those n bytes to ecdh_encrypt_send and continues
the loop. -/
theorem relay_tls_read_behavior (o : RelayOracle) (h : o.tlsReadable = true) :
    (o.tlsRead = TlsReadSource.closed →
       tls_branch o = ([Event.logPeerClosed], StepOutcome.breakLoop)) ∧
    (o.tlsRead = TlsReadSource.readError →
       (tls_branch o).2 = StepOutcome.exitProcess EXIT_FAILURE) ∧
    (∀ avail, o.tlsRead = TlsReadSource.data avail →
       (avail.take ECDH_MAX_MSG_SIZE).length ≤ ECDH_MAX_MSG_SIZE ∧
       ((avail.take ECDH_MAX_MSG_SIZE).length = 0 →
          tls_branch o = ([Event.logPeerClosed], StepOutcome.breakLoop)) ∧
       (0 < (avail.take ECDH_MAX_MSG_SIZE).length →
          tls_branch o =
            ([Event.encryptSend (avail.take ECDH_MAX_MSG_SIZE)],
             StepOutcome.continueLoop))) := by
  refine ⟨?_, ?_, ?_⟩
  · intro hr; simp [tls_branch, h, hr]
  · intro hr; simp [tls_branch, h, hr]
  · intro avail hr
    refine ⟨List.length_take_le _ _, ?_, ?_⟩
    · intro hlen; simp [tls_branch, h, hr, hlen]
    · intro hlen
      have hmax : ECDH_MAX_MSG_SIZE ≠ 0 := by simp [ECDH_MAX_MSG_SIZE]
      have hnil : avail ≠ [] := by
        intro hn
        rw [hn] at hlen
        simp at hlen
      simp [tls_branch, h, hr, hmax, hnil]

/-- C3 witness: the theorem applied to a concrete readable oracle with
two bytes available: the read is within bounds and both bytes are
encrypted and sent. -/
theorem relay_tls_read_behavior_witness :
    tls_branch
        { ecdhReadable := false, tlsReadable := true, ecdhMsg := [],
          tlsWriteRet := 0, tlsRead := TlsReadSource.data [104, 105] }
      = ([Event.encryptSend (([104, 105] : Bytes).take ECDH_MAX_MSG_SIZE)],
         StepOutcome.continueLoop) :=
  (((relay_tls_read_behavior
      { ecdhReadable := false, tlsReadable := true, ecdhMsg := [],
        tlsWriteRet := 0, tlsRead := TlsReadSource.data [104, 105] }
      rfl).2.2 [104, 105] rfl).2.2 (by decide))

/-- C4: in any loop iteration where the ECDH side is readable, the
decrypted payload is written to the TLS stream, and whenever BIO_write
transfers fewer bytes than the payload length, the iteration ends at
once in cleanup and a process exit with status 1: no retry, no free of
the buffer, no further relay action in that iteration. -/
theorem relay_inbound_write_behavior (o : RelayOracle) (h : o.ecdhReadable = true) :
    Event.tlsWrite o.ecdhMsg o.tlsWriteRet ∈ (proxy_step o).1 ∧
    (o.tlsWriteRet < (o.ecdhMsg.length : Int) →
       proxy_step o =
         ([Event.recvDecrypt o.ecdhMsg,
           Event.tlsWrite o.ecdhMsg o.tlsWriteRet,
           Event.cleanupCall, Event.exitProc EXIT_FAILURE],
          StepOutcome.exitProcess EXIT_FAILURE)) := by
  constructor
  · by_cases hw : o.tlsWriteRet = (o.ecdhMsg.length : Int)
    · simp [proxy_step, h, hw]
    · simp [proxy_step, h, hw]
  · intro hlt
    have hw : o.tlsWriteRet ≠ (o.ecdhMsg.length : Int) := ne_of_lt hlt
    simp [proxy_step, h, hw]

/-- C4 witness: the theorem applied to a concrete oracle in which a
three-byte payload gets a short write of 2: the iteration ends in the
fatal exit with status 1. -/
theorem relay_inbound_write_behavior_witness :
    proxy_step
        { ecdhReadable := true, tlsReadable := false, ecdhMsg := [10, 20, 30],
          tlsWriteRet := 2, tlsRead := TlsReadSource.closed }
      = ([Event.recvDecrypt [10, 20, 30],
          Event.tlsWrite [10, 20, 30] 2,
          Event.cleanupCall, Event.exitProc EXIT_FAILURE],
         StepOutcome.exitProcess EXIT_FAILURE) :=
  (relay_inbound_write_behavior
      { ecdhReadable := true, tlsReadable := false, ecdhMsg := [10, 20, 30],
        tlsWriteRet := 2, tlsRead := TlsReadSource.closed }
      rfl).2 (by decide)

/-- The TLS-readable branch never frees a buffer on its own, so its
event list trivially satisfies the clear-before-free discipline. -/
lemma clearBeforeFree_tls_branch (o : RelayOracle) :
    clearBeforeFree (tls_branch o).1 = true := by
  unfold tls_branch
  split
  · split
    · rfl
    · rfl
    · split
      · rfl
      · rfl
  · rfl

/-- C9: in every relay-loop iteration, any freed decrypted payload
buffer is zeroized immediately before the free (and a buffer is never
freed without the preceding clear); and at session teardown the ECDH
cleanup overwrites the whole session-key region with zeros (preserving
its length) before proxy_cleanup re-zeroes the entire proxy struct, so
the final state is the all-zero state. -/
theorem buffers_zeroized_before_release (o : RelayOracle) (p : TLSProxy) :
    clearBeforeFree (proxy_step o).1 = true ∧
    (cleanup p.ecdhconn).session_key.all (fun b => b == 0) = true ∧
    (cleanup p.ecdhconn).session_key.length = p.ecdhconn.session_key.length ∧
    (proxy_cleanup p).2 = zeroTLSProxy := by
  refine ⟨?_, ?_, ?_, rfl⟩
  · by_cases he : o.ecdhReadable
    · by_cases hw : o.tlsWriteRet = (o.ecdhMsg.length : Int)
      · have htls := clearBeforeFree_tls_branch o
        simp [proxy_step, he, hw, clearBeforeFree, htls]
      · simp [proxy_step, he, hw, clearBeforeFree]
    · simpa [proxy_step, he] using clearBeforeFree_tls_branch o
  · simp [cleanup, List.all_map]
  · simp [cleanup]

/-- C6: every SSL_CTX that tls_config_ctx hands back is configured
with minimum protocol version TLS 1.2, peer-certificate verification
required (SSL_VERIFY_PEER) and verification depth 5; and whenever any
configuration step fails (tls_config_ctx returns the error), the
BIO_do_connect handshake is never attempted and the process exits
through proxy_error instead. -/
theorem tls_ctx_min_version_verify_depth :
    (∀ c o s, tls_config_ctx c o = some s →
       s.minProtoVersion = TLS1_2_VERSION ∧
       s.verifyMode = SSL_VERIFY_PEER ∧
       s.verifyDepth = 5) ∧
    (∀ c (o : TlsOracle), tls_config_ctx c o.ctx = none →
       (setup_tlsconn c o).1 = false ∧
       (setup_tlsconn c o).2 = SetupResult.exited EXIT_FAILURE) := by
  constructor
  · intro c o s h
    unfold tls_config_ctx at h
    repeat' split at h
    all_goals simp only [Option.some.injEq, reduceCtorEq] at h
    all_goals (subst h; exact ⟨rfl, rfl, rfl⟩)
  · intro c o h
    unfold setup_tlsconn
    rw [h]
    exact ⟨rfl, rfl⟩

/-- C6 witness: the theorem applied to the concrete example
configuration under the all-success oracle, whose result context is
explicitly TLS 1.2, SSL_VERIFY_PEER, depth 5. -/
theorem tls_ctx_min_version_verify_depth_witness :
    tls_config_ctx exampleConn allOkCtxOracle =
      some { minProtoVersion := TLS1_2_VERSION, verifyMode := SSL_VERIFY_PEER,
             verifyDepth := 5, trust := TrustSource.systemDefault,
             clientKey := none, clientCert := none } ∧
    TLS1_2_VERSION = 771 ∧ SSL_VERIFY_PEER = 1 ∧
    (5 : Nat) = 5 :=
  ⟨rfl, rfl, rfl,
   (tls_ctx_min_version_verify_depth.1 exampleConn allOkCtxOracle
      { minProtoVersion := TLS1_2_VERSION, verifyMode := SSL_VERIFY_PEER,
        verifyDepth := 5, trust := TrustSource.systemDefault,
        clientKey := none, clientCert := none } rfl).2.2⟩

/-- C7: whenever tls_config_conn succeeds, the SNI hostname and the
certificate-verification hostname are the same string, and both are
the configured remote host; moreover setup_tlsconn attempts the TLS
handshake (BIO_do_connect) only after tls_config_conn has succeeded,
so both names are in place before the handshake. -/
theorem sni_and_verify_host_bind_remote_host :
    (∀ c o s, tls_config_conn c o = some s →
       s.sniHost = s.verifyHost ∧ c.host = some s.sniHost) ∧
    (∀ c (o : TlsOracle), (setup_tlsconn c o).1 = true →
       (tls_config_conn c o.conn).isSome = true) := by
  constructor
  · intro c o s h
    unfold tls_config_conn at h
    repeat' split at h
    all_goals simp only [Option.some.injEq, reduceCtorEq] at h
    all_goals subst h
    all_goals exact ⟨rfl, by simp_all⟩
  · intro c o h
    unfold setup_tlsconn at h
    split at h
    · simp at h
    · split at h
      · simp at h
      · next heq => rw [heq]; rfl

/-- C7 witness: the theorem applied to the example configuration under
the all-success oracle: SNI and verification hostname both come out as
the configured remote host string. -/
theorem sni_and_verify_host_bind_remote_host_witness :
    tls_config_conn exampleConn allOkConnOracle =
      some { connHostname := "kms.example", connPort := "9143",
             sniHost := "kms.example", verifyHost := "kms.example" } ∧
    exampleConn.host =
      some (SSLConnState.sniHost
        { connHostname := "kms.example", connPort := "9143",
          sniHost := "kms.example", verifyHost := "kms.example" }) :=
  ⟨rfl,
   (sni_and_verify_host_bind_remote_host.1 exampleConn allOkConnOracle
      { connHostname := "kms.example", connPort := "9143",
        sniHost := "kms.example", verifyHost := "kms.example" } rfl).2⟩

/-- C8 counterexample: a configuration supplying a client key file but
no client certificate is not rejected: with every load succeeding,
tls_config_ctx succeeds, and setup_tlsconn goes on to attempt the TLS
connection, so the credentials are not checked to be all-or-nothing. -/
theorem client_key_without_cert_not_rejected :
    keyOnlyConn.client_key_path.isSome = true ∧
    keyOnlyConn.client_cert_path = none ∧
    (tls_config_ctx keyOnlyConn allOkCtxOracle).isSome = true ∧
    (setup_tlsconn keyOnlyConn
        { ctx := allOkCtxOracle, conn := allOkConnOracle, connectOk := true }).1
      = true :=
  ⟨rfl, rfl, rfl, rfl⟩

/-- C8 amended: the client key file and the client certificate file
are loaded independently, each exactly when its path is supplied, and
a successful configuration carries exactly the supplied ones into the
context; in particular when both are supplied both are presented for
mutual TLS, but supplying only one of them is not rejected. -/
theorem client_credentials_loaded_independently
    (c : TLSConnection) (o : CtxOracle) (s : SSLCtxState)
    (h : tls_config_ctx c o = some s) :
    s.clientKey = c.client_key_path ∧ s.clientCert = c.client_cert_path := by
  unfold tls_config_ctx at h
  repeat' split at h
  all_goals simp only [Option.some.injEq, reduceCtorEq] at h
  all_goals (subst h; exact ⟨rfl, rfl⟩)

/-- C8 amended witness: applied to the key-without-cert configuration
under the all-success oracle: the key is loaded, the certificate slot
stays empty, and the connection setup proceeds. -/
theorem client_credentials_loaded_independently_witness :
    SSLCtxState.clientKey
        { minProtoVersion := TLS1_2_VERSION, verifyMode := SSL_VERIFY_PEER,
          verifyDepth := 5, trust := TrustSource.systemDefault,
          clientKey := some "proxy_client_key.pem", clientCert := none }
      = keyOnlyConn.client_key_path ∧
    SSLCtxState.clientCert
        { minProtoVersion := TLS1_2_VERSION, verifyMode := SSL_VERIFY_PEER,
          verifyDepth := 5, trust := TrustSource.systemDefault,
          clientKey := some "proxy_client_key.pem", clientCert := none }
      = keyOnlyConn.client_cert_path :=
  client_credentials_loaded_independently keyOnlyConn allOkCtxOracle
    { minProtoVersion := TLS1_2_VERSION, verifyMode := SSL_VERIFY_PEER,
      verifyDepth := 5, trust := TrustSource.systemDefault,
      clientKey := some "proxy_client_key.pem", clientCert := none } rfl

end TlsProxy
